import Mathlib

/-!
Verification of the `viberun` pip launcher (`packaging/pypi/viberun/cli.py`).

The launcher resolves a target triple from the host platform, locates a
vendored binary, prepares a child environment (PATH extension plus a marker
variable), spawns the binary and propagates its exit status. The definitions
below are a shallow embedding of that module: strings model Python strings,
an association list models the environment dictionary, and a list of paths
models the set of filesystem paths that exist. A whole invocation of `main`
is modelled by `main_run`, which records the observable effects of the run
(the spawned command and its environment, the installed signal handlers, any
signal re-raised against the launcher itself, and the returned exit code or
the raised error message).
-/

namespace Viberun

/-- Python's `str.startswith`, modelled on the character list of the string. -/
def startsWith (s pre : String) : Bool := pre.data.isPrefixOf s.data

/-- Python's `str.lower`, modelled as character-wise ASCII lowering. -/
def lower (s : String) : String := String.mk (s.data.map Char.toLower)

/-- Embedding of `_target_triple`. `system` stands for `sys.platform` and
`machine0` for `platform.machine()`; the Python function lowercases the
machine string once and then tests the three OS families in order, raising
`RuntimeError` when no enumerated pair matches. The nested `if` blocks of
the source are linearised into one `if`/`else if` chain: inside each OS
block the source returns on a machine match and otherwise falls through to
the next OS test, which is exactly what the chain does. -/
def target_triple (system machine0 : String) : Except String String :=
  let machine := lower machine0
  if startsWith system "linux" && (machine == "x86_64" || machine == "amd64") then
    Except.ok "x86_64-unknown-linux-musl"
  else if startsWith system "linux" && (machine == "aarch64" || machine == "arm64") then
    Except.ok "aarch64-unknown-linux-musl"
  else if system == "darwin" && (machine == "x86_64" || machine == "amd64") then
    Except.ok "x86_64-apple-darwin"
  else if system == "darwin" && (machine == "aarch64" || machine == "arm64") then
    Except.ok "aarch64-apple-darwin"
  else if (system == "win32" || system == "cygwin" || system == "msys") && (machine == "x86_64" || machine == "amd64") then
    Except.ok "x86_64-pc-windows-msvc"
  else if (system == "win32" || system == "cygwin" || system == "msys") && (machine == "aarch64" || machine == "arm64") then
    Except.ok "aarch64-pc-windows-msvc"
  else
    Except.error ("Unsupported platform: " ++ system ++ " (" ++ machine ++ ")")

/-- The OS names accepted by `_target_triple`: any `sys.platform` starting
with `"linux"`, exactly `"darwin"`, or one of the Windows-family values. -/
def osSupported (system : String) : Bool :=
  startsWith system "linux" || system == "darwin" ||
    system == "win32" || system == "cygwin" || system == "msys"

/-- The machine string denotes the x86-64 architecture after lowering. -/
def isX86 (machine : String) : Bool :=
  lower machine == "x86_64" || lower machine == "amd64"

/-- The machine string denotes the AArch64 architecture after lowering. -/
def isArm (machine : String) : Bool :=
  lower machine == "aarch64" || lower machine == "arm64"

/-- The machine string is one of the four accepted architecture spellings. -/
def supportedArch (machine : String) : Bool := isX86 machine || isArm machine

/-- Documented identifier table, written from the spec's wording rather than
from the code, for comparison with `target_triple`: the identifier is the
canonical architecture name followed by the fixed per-OS tail. -/
def specTriple (system machine : String) : String :=
  (if isX86 machine then "x86_64" else "aarch64") ++
    (if startsWith system "linux" then "-unknown-linux-musl"
     else if system == "darwin" then "-apple-darwin"
     else "-pc-windows-msvc")

/-- Embedding of `_binary_path`, with the ambient inputs made explicit:
`root` is the resolved package directory (`Path(__file__).resolve().parent`),
`target` the already-resolved triple, and `isNT` the value of
`os.name == "nt"`. Path joining is modelled as `"/"`-separated string
concatenation. -/
def binary_path (root target : String) (isNT : Bool) : String :=
  let binaryName := if isNT then "viberun.exe" else "viberun"
  root ++ "/vendor/" ++ target ++ "/viberun/" ++ binaryName

/-- The environment dictionary: an association list from variable names to
values, looked up at the first matching key. -/
abbrev Env := List (String × String)

/-- Dictionary lookup, Python's `env.get(k)`. -/
def envFind (env : Env) (k : String) : Option String :=
  (env.find? (fun p => p.1 == k)).map (fun p => p.2)

/-- Dictionary lookup with a default, Python's `env.get(k, d)`. -/
def envGetD (env : Env) (k d : String) : String := (envFind env k).getD d

/-- Dictionary assignment `env[k] = v`, modelled observationally: the new
binding shadows any older binding of the same key. -/
def envSet (env : Env) (k v : String) : Env := (k, v) :: env

/-- Embedding of `_extend_path`. `fs` is the list of filesystem paths that
exist (so `p ∈ fs` models `Path(p).exists()`), `isNT` is `os.name == "nt"`
and `vendorRoot` the directory passed as `vendor_root`. The Python guard
`if existing` is string truthiness, hence the `existing != ""` test. -/
def extend_path (fs : List String) (isNT : Bool) (vendorRoot : String) (env : Env) : Env :=
  let pathDir := vendorRoot ++ "/path"
  if !(fs.contains pathDir) then env
  else
    let pathSep := if isNT then ";" else ":"
    let existing := envGetD env "PATH" ""
    envSet env "PATH" (if existing != "" then pathDir ++ pathSep ++ existing else pathDir)

/-- Host facts `main` reads from the interpreter: `sys.platform`,
`platform.machine()`, `os.name`, and which of the forwarded signal names
exist in the `signal` module (`getattr(signal, name, None)`). -/
structure Host where
  sysPlatform : String
  machine : String
  osName : String
  availableSignals : List String

/-- Observable outcome of one invocation of `main`. `parentEnvAfter` is the
parent's own `os.environ` after the run (the code only ever reads a copy of
it); `spawned` is the argument vector and environment handed to
`subprocess.Popen`, when the run reaches the spawn; `installedHandlers` are
the signal names hooked up to the forwarding handler; `raisedSignal` is the
signal number `main` re-raises against its own process via `os.kill`, if
any; `outcome` is the raised `RuntimeError` message or the returned code. -/
structure RunResult where
  parentEnvAfter : Env
  spawned : Option (List String × Env)
  installedHandlers : List String
  raisedSignal : Option Int
  outcome : Except String Int

/-- Embedding of `main`. Beyond the `Host`, the ambient inputs are the
existing filesystem paths `fs`, the package directory `root`, the parent
environment `parentEnv` (`os.environ`), the command-line tail `argv`
(`sys.argv[1:]`) and the child's wait status `childCode` (`proc.wait()`).
The vendor root passed to `_extend_path` is `binary.parent.parent`, i.e.
`root ++ "/vendor/" ++ target`; the environment is built from a copy of
`parentEnv`, so the parent mapping itself flows through unchanged. -/
def main_run (host : Host) (fs : List String) (root : String) (parentEnv : Env)
    (argv : List String) (childCode : Int) : RunResult :=
  match target_triple host.sysPlatform host.machine with
  | Except.error e =>
      { parentEnvAfter := parentEnv, spawned := none, installedHandlers := [],
        raisedSignal := none, outcome := Except.error e }
  | Except.ok target =>
      let isNT := host.osName == "nt"
      let binary := binary_path root target isNT
      if fs.contains binary then
        let envCopy := parentEnv
        let env0 := extend_path fs isNT (root ++ "/vendor/" ++ target) envCopy
        let env := envSet env0 "VIBERUN_MANAGED_BY_PIP" "1"
        { parentEnvAfter := parentEnv,
          spawned := some (binary :: argv, env),
          installedHandlers :=
            ["SIGINT", "SIGTERM", "SIGHUP"].filter host.availableSignals.contains,
          raisedSignal := if childCode < 0 then some (-childCode) else none,
          outcome := Except.ok childCode }
      else
        { parentEnvAfter := parentEnv, spawned := none, installedHandlers := [],
          raisedSignal := none,
          outcome := Except.error ("Missing viberun binary at " ++ binary) }

/-- Looking up the key just assigned by `envSet` yields the assigned value. -/
theorem envFind_envSet_self (env : Env) (k v : String) :
    envFind (envSet env k v) k = some v := by
  simp [envFind, envSet, List.find?_cons_of_pos]

/-- The empty string has no characters. -/
theorem empty_string_data : ("" : String).data = [] := rfl

/-- No list of characters that ends in the characters of "viberun" ends in
the characters of ".exe": the final four characters differ. -/
theorem exe_not_suffix_of_viberun (l : List Char) :
    ¬ (".exe".data <:+ l ++ "viberun".data) := by
  intro h
  rcases h with ⟨u, hu⟩
  have hdata : ".exe".data = ['.', 'e', 'x', 'e'] := rfl
  have hvb : "viberun".data = ['v', 'i', 'b'] ++ ['e', 'r', 'u', 'n'] := rfl
  rw [hdata, hvb, ← List.append_assoc] at hu
  have h4 := (List.append_inj' hu rfl).2
  exact absurd h4 (by decide)

/-- C1: on the supported enumeration, `_target_triple` returns exactly the
documented fixed identifier (`specTriple`), and outside the enumeration it
fails with the unsupported-platform error naming the raw OS string and the
lowered machine string. -/
theorem c1_triple_enumeration (system machine : String) :
    ((osSupported system && supportedArch machine) = true →
      target_triple system machine = Except.ok (specTriple system machine)) ∧
    ((osSupported system && supportedArch machine) = false →
      target_triple system machine =
        Except.error ("Unsupported platform: " ++ system ++ " (" ++ lower machine ++ ")")) := by
  constructor
  · intro h
    rw [Bool.and_eq_true] at h
    obtain ⟨hos, harch⟩ := h
    simp only [osSupported, supportedArch, isX86, isArm, Bool.or_eq_true, beq_iff_eq] at hos harch
    simp only [target_triple, specTriple, isX86]
    rcases hos with ((((hos | hos) | hos) | hos) | hos) <;>
      rcases harch with (ha | ha) | (ha | ha) <;>
      simp only [hos, ha] <;> rfl
  · intro h
    cases hos : osSupported system with
    | false =>
      simp only [osSupported, Bool.or_eq_false_iff] at hos
      obtain ⟨⟨⟨⟨h1, h2⟩, h3⟩, h4⟩, h5⟩ := hos
      simp only [target_triple]
      simp only [h1, h2, h3, h4, h5]
      rfl
    | true =>
      have harch : supportedArch machine = false := by
        cases hsa : supportedArch machine with
        | false => rfl
        | true => rw [hos, hsa] at h; exact absurd h (by decide)
      simp only [supportedArch, isX86, isArm, Bool.or_eq_false_iff] at harch
      obtain ⟨⟨a1, a2⟩, a3, a4⟩ := harch
      simp only [target_triple]
      simp only [a1, a2, a3, a4, Bool.or_self, Bool.and_false]
      rfl

/-- C1 witness: the supported pair (linux, x86_64) resolves to the documented
identifier, and the unsupported OS freebsd is rejected with an error naming
it. -/
theorem c1_triple_enumeration_witness :
    target_triple "linux" "x86_64" = Except.ok (specTriple "linux" "x86_64") ∧
    target_triple "freebsd" "x86_64" =
      Except.error ("Unsupported platform: " ++ "freebsd" ++ " (" ++ lower "x86_64" ++ ")") :=
  ⟨(c1_triple_enumeration "linux" "x86_64").1 (by decide),
   (c1_triple_enumeration "freebsd" "x86_64").2 (by decide)⟩

/-- C6: for every supported OS name, the machine aliases "amd64" and
"x86_64" resolve to one and the same identifier, and so do "arm64" and
"aarch64". -/
theorem c6_arch_aliases (system : String) (h : osSupported system = true) :
    (∃ t, target_triple system "amd64" = Except.ok t ∧
          target_triple system "x86_64" = Except.ok t) ∧
    (∃ t, target_triple system "arm64" = Except.ok t ∧
          target_triple system "aarch64" = Except.ok t) := by
  simp only [osSupported, Bool.or_eq_true, beq_iff_eq] at h
  simp only [target_triple]
  rcases h with ((((h | h) | h) | h) | h) <;> simp only [h] <;>
    exact ⟨⟨_, rfl, rfl⟩, ⟨_, rfl, rfl⟩⟩

/-- C6 witness: on darwin both x86 spellings give the darwin x86 identifier
and both arm spellings give the darwin arm identifier. -/
theorem c6_arch_aliases_witness :
    (∃ t, target_triple "darwin" "amd64" = Except.ok t ∧
          target_triple "darwin" "x86_64" = Except.ok t) ∧
    (∃ t, target_triple "darwin" "arm64" = Except.ok t ∧
          target_triple "darwin" "aarch64" = Except.ok t) :=
  c6_arch_aliases "darwin" (by decide)

/-- C7 counterexample: changing the letter case of the OS name does change
the result of resolution — "linux"/x86_64 resolves, while "LINUX"/x86_64
fails with the unsupported-platform error — so the comparison of the raw OS
name is not case-insensitive. -/
theorem c7_case_counterexample :
    target_triple "linux" "x86_64" = Except.ok "x86_64-unknown-linux-musl" ∧
    target_triple "LINUX" "x86_64" =
      Except.error "Unsupported platform: LINUX (x86_64)" :=
  ⟨rfl, rfl⟩

/-- C7 amended: resolution is case-insensitive in the machine string only:
two machine spellings with the same lowering yield identical results for
every OS name, while the OS name itself is compared case-sensitively (the
counterexample shows case changes there alter the outcome). -/
theorem c7_machine_case_insensitive (system m1 m2 : String)
    (h : lower m1 = lower m2) :
    target_triple system m1 = target_triple system m2 := by
  simp only [target_triple]
  rw [h]

/-- C7 amended witness: the machine spellings "X86_64" and "x86_64" lower to
the same string and resolve identically on linux. -/
theorem c7_machine_case_insensitive_witness :
    target_triple "linux" "X86_64" = target_triple "linux" "x86_64" :=
  c7_machine_case_insensitive "linux" "X86_64" "x86_64" (by decide)

/-- C4 counterexample: with PATH present but bound to the empty string and
the auxiliary directory existing, the prepared PATH is the bare directory
string — the path-list separator is not appended — so the prepared value is
not the directory, separator and original PATH composed. -/
theorem c4_empty_path_counterexample :
    envFind [("PATH", "")] "PATH" = some "" ∧
    envFind (extend_path ["/r/path"] false "/r" [("PATH", "")]) "PATH" = some "/r/path" ∧
    ("/r/path" : String) ≠ "/r" ++ "/path" ++ ":" ++ "" := by
  refine ⟨rfl, rfl, ?_⟩
  decide

/-- C4 amended: when PATH is present, the prepared PATH always ends with the
original PATH value; when moreover the auxiliary directory exists and the
original value is non-empty, the prepared PATH is exactly the directory,
the platform separator and the original value. (For a present-but-empty
PATH the code takes the falsy branch and the prepared PATH is the bare
directory, which still ends in the empty original value.) -/
theorem c4_path_preserved (fs : List String) (isNT : Bool) (vendorRoot : String)
    (env : Env) (p : String) (h : envFind env "PATH" = some p) :
    p.data <:+ (envGetD (extend_path fs isNT vendorRoot env) "PATH" "").data ∧
    ((vendorRoot ++ "/path") ∈ fs → p ≠ "" →
      envFind (extend_path fs isNT vendorRoot env) "PATH" =
        some (vendorRoot ++ "/path" ++ (if isNT then ";" else ":") ++ p)) := by
  by_cases hd : (vendorRoot ++ "/path") ∈ fs
  · by_cases hp : p = ""
    · subst hp
      constructor
      · simp [extend_path, hd, envGetD, envFind_envSet_self, h, empty_string_data]
      · intro _ hne
        exact absurd rfl hne
    · have hb : (p != "") = true := by simp [hp]
      constructor
      · have hsfx : p.data <:+
            ((vendorRoot ++ "/path" ++ (if isNT then ";" else ":")).data) ++ p.data :=
          List.suffix_append _ _
        simpa [extend_path, hd, hb, envGetD, envFind_envSet_self, h] using hsfx
      · intro _ _
        simp [extend_path, hd, hb, envGetD, envFind_envSet_self, h]
  · constructor
    · simp [extend_path, hd, envGetD, h]
    · intro hmem
      exact absurd hmem hd

/-- C4 amended witness: for the environment where PATH is "/usr/bin" and the
auxiliary directory "/r/path" exists on a POSIX host, the prepared PATH is
"/r/path:/usr/bin", which ends in the original value. -/
theorem c4_path_preserved_witness :
    ("/usr/bin" : String).data <:+
      (envGetD (extend_path ["/r/path"] false "/r" [("PATH", "/usr/bin")]) "PATH" "").data ∧
    (("/r" ++ "/path") ∈ (["/r/path"] : List String) → "/usr/bin" ≠ "" →
      envFind (extend_path ["/r/path"] false "/r" [("PATH", "/usr/bin")]) "PATH" =
        some ("/r" ++ "/path" ++ (if false then ";" else ":") ++ "/usr/bin")) :=
  c4_path_preserved ["/r/path"] false "/r" [("PATH", "/usr/bin")] "/usr/bin" rfl

/-- C5: when the auxiliary directory is absent beneath the vendor root,
environment preparation leaves the PATH entry unchanged, and every spawned
child environment carries the managed-launch marker VIBERUN_MANAGED_BY_PIP
set to "1". -/
theorem c5_path_noop_and_marker :
    (∀ (fs : List String) (isNT : Bool) (vendorRoot : String) (env : Env),
      (vendorRoot ++ "/path") ∉ fs →
      envFind (extend_path fs isNT vendorRoot env) "PATH" = envFind env "PATH") ∧
    (∀ (host : Host) (fs : List String) (root : String) (parentEnv : Env)
      (argv : List String) (code : Int) (args : List String) (childEnv : Env),
      (main_run host fs root parentEnv argv code).spawned = some (args, childEnv) →
      envFind childEnv "VIBERUN_MANAGED_BY_PIP" = some "1") := by
  constructor
  · intro fs isNT vendorRoot env hd
    simp [extend_path, hd]
  · intro host fs root parentEnv argv code args childEnv hsp
    unfold main_run at hsp
    cases htt : target_triple host.sysPlatform host.machine with
    | error e =>
      rw [htt] at hsp
      simp at hsp
    | ok target =>
      rw [htt] at hsp
      by_cases hc : binary_path root target (host.osName == "nt") ∈ fs
      · simp [hc] at hsp
        obtain ⟨-, h2⟩ := hsp
        rw [← h2]
        exact envFind_envSet_self _ _ _
      · simp [hc] at hsp

/-- C8: the constructed binary path is exactly the documented composition
root/vendor/target/viberun/binary-name, a function of (root, target,
Windows-ness) alone, and it ends in the ".exe" suffix exactly when
`os.name == "nt"`, i.e. on a Windows host. -/
theorem c8_binary_path_shape (root target : String) (isNT : Bool) :
    binary_path root target isNT =
      root ++ "/vendor/" ++ target ++ "/viberun/" ++
        (if isNT then "viberun.exe" else "viberun") ∧
    (".exe".data <:+ (binary_path root target isNT).data ↔ isNT = true) := by
  refine ⟨rfl, ?_⟩
  cases isNT with
  | false =>
    simp only [binary_path]
    constructor
    · intro h
      rw [if_neg (by decide : ¬ (false = true))] at h
      rw [String.data_append] at h
      exact absurd h (exe_not_suffix_of_viberun _)
    · intro h
      exact absurd h (by decide)
  | true =>
    constructor
    · intro _
      rfl
    · intro _
      show ".exe".data <:+ (root ++ "/vendor/" ++ target ++ "/viberun/" ++ "viberun.exe").data
      rw [String.data_append]
      exact List.IsSuffix.trans ⟨"viberun".data, rfl⟩ (List.suffix_append _ _)

/-- C2: in every run that spawned the child, a non-negative child exit code
becomes the launcher's returned exit code with no signal re-raised against
the launcher, and a negative child code makes the launcher re-raise the
signal numbered by the negated code against its own process. -/
theorem c2_exit_propagation (host : Host) (fs : List String) (root : String)
    (parentEnv : Env) (argv : List String) (code : Int)
    (hspawn : (main_run host fs root parentEnv argv code).spawned ≠ none) :
    (0 ≤ code →
      (main_run host fs root parentEnv argv code).outcome = Except.ok code ∧
      (main_run host fs root parentEnv argv code).raisedSignal = none) ∧
    (code < 0 →
      (main_run host fs root parentEnv argv code).raisedSignal = some (-code)) := by
  unfold main_run at hspawn ⊢
  cases htt : target_triple host.sysPlatform host.machine with
  | error e =>
    rw [htt] at hspawn
    simp at hspawn
  | ok target =>
    rw [htt] at hspawn
    by_cases hc : binary_path root target (host.osName == "nt") ∈ fs
    · constructor
      · intro hpos
        have hnneg : ¬ code < 0 := by omega
        constructor <;> simp [hc, hnneg]
      · intro hneg
        simp [hc, hneg]
    · simp [hc] at hspawn

/-- C2 witness: on a linux/x86_64 host whose binary exists, a child that
died of signal 2 (wait status -2) makes the launcher re-raise signal 2. -/
theorem c2_exit_propagation_witness :
    (main_run ⟨"linux", "x86_64", "posix", []⟩
      ["/pkg/vendor/x86_64-unknown-linux-musl/viberun/viberun"] "/pkg" [] []
      (-2)).raisedSignal = some (-(-2)) :=
  (c2_exit_propagation ⟨"linux", "x86_64", "posix", []⟩
    ["/pkg/vendor/x86_64-unknown-linux-musl/viberun/viberun"] "/pkg" [] [] (-2)
    (by decide)).2 (by decide)

/-- C3: whenever target resolution succeeded but the resolved binary file
does not exist, the run fails with the missing-binary error naming the full
expected path, and no child process is spawned. -/
theorem c3_missing_binary (host : Host) (fs : List String) (root : String)
    (parentEnv : Env) (argv : List String) (code : Int) (target : String)
    (htt : target_triple host.sysPlatform host.machine = Except.ok target)
    (hmiss : binary_path root target (host.osName == "nt") ∉ fs) :
    (main_run host fs root parentEnv argv code).outcome =
      Except.error
        ("Missing viberun binary at " ++ binary_path root target (host.osName == "nt")) ∧
    (main_run host fs root parentEnv argv code).spawned = none := by
  unfold main_run
  rw [htt]
  simp [hmiss]

/-- C3 witness: with an empty filesystem, a linux/x86_64 run fails with the
missing-binary message for the full vendored path and spawns nothing. -/
theorem c3_missing_binary_witness :
    (main_run ⟨"linux", "x86_64", "posix", []⟩ [] "/pkg" [] [] 0).outcome =
      Except.error
        ("Missing viberun binary at " ++
          binary_path "/pkg" "x86_64-unknown-linux-musl" (("posix" : String) == "nt")) ∧
    (main_run ⟨"linux", "x86_64", "posix", []⟩ [] "/pkg" [] [] 0).spawned = none :=
  c3_missing_binary ⟨"linux", "x86_64", "posix", []⟩ [] "/pkg" [] [] 0
    "x86_64-unknown-linux-musl" rfl (by simp)

/-- C9: the parent's own environment mapping is unchanged by every run; only
the copy handed to the child is augmented. -/
theorem c9_parent_env_unchanged (host : Host) (fs : List String) (root : String)
    (parentEnv : Env) (argv : List String) (code : Int) :
    (main_run host fs root parentEnv argv code).parentEnvAfter = parentEnv := by
  unfold main_run
  cases htt : target_triple host.sysPlatform host.machine with
  | error e => rfl
  | ok target =>
    by_cases hc : binary_path root target (host.osName == "nt") ∈ fs <;> simp [hc]

/-- C10: when the child's reported code is negative and the re-raised signal
does not terminate the launcher, `main` still returns that negative code
itself as its result. -/
theorem c10_negative_code_returned (host : Host) (fs : List String) (root : String)
    (parentEnv : Env) (argv : List String) (code : Int)
    (hspawn : (main_run host fs root parentEnv argv code).spawned ≠ none)
    (hneg : code < 0) :
    (main_run host fs root parentEnv argv code).outcome = Except.ok code := by
  unfold main_run at hspawn ⊢
  cases htt : target_triple host.sysPlatform host.machine with
  | error e =>
    rw [htt] at hspawn
    simp at hspawn
  | ok target =>
    rw [htt] at hspawn
    by_cases hc : binary_path root target (host.osName == "nt") ∈ fs
    · simp [hc]
    · simp [hc] at hspawn

/-- C10 witness: with the binary present and a child wait status of -15, the
launcher's result is the negative value -15 itself. -/
theorem c10_negative_code_returned_witness :
    (main_run ⟨"linux", "x86_64", "posix", []⟩
      ["/pkg/vendor/x86_64-unknown-linux-musl/viberun/viberun"] "/pkg" [] []
      (-15)).outcome = Except.ok (-15) :=
  c10_negative_code_returned ⟨"linux", "x86_64", "posix", []⟩
    ["/pkg/vendor/x86_64-unknown-linux-musl/viberun/viberun"] "/pkg" [] [] (-15)
    (by decide) (by decide)

end Viberun
